import Mathlib

/-!
Verification of the object-protocol, error-translation and lock layers of a
host-to-foreign-runtime binding (sources: src/src/objectprotocol.rs,
src/src/types/module.rs, src/src/ffi/pystate.rs).

Modelling conventions:
- a raw foreign handle is a natural number, with 0 standing for the null
  pointer;
- the foreign runtime is an explicit state (pending-exception slot and, for
  the round-trip claims, an attribute store); raw foreign calls whose
  implementation lives outside this repository are passed in as explicit
  arguments (their status or pointer result) or modelled from the spec, as
  noted on each definition;
- a fallible host operation returns an Outcome paired with the new foreign
  state; the panicked constructor records a Rust panic.
-/

namespace PyO3

/-- A raw foreign object pointer; 0 is the null pointer. -/
abbrev RawPtr := Nat

/-- The foreign runtime state visible to this layer: the current-exception
slot (none when no error is pending) and, for the attribute round-trip
claims, the attribute store of the receiver object, modelled from the spec
as an association list from attribute names to raw values (the most recent
binding is the current one). -/
structure FFIState where
  pending : Option RawPtr
  attrs : List (String × RawPtr)
deriving Repr, DecidableEq

/-- A structured error value: the fetched foreign exception, or none when
fetch found no error pending. Mirrors the ErrorValue of the spec and the
PyErr of err.rs. -/
structure PyErr where
  exc : Option RawPtr
deriving Repr, DecidableEq

/-- The ownership wrapper around a non-null raw handle (PyPtr in
src/src/objectprotocol.rs). -/
structure PyPtr where
  ptr : RawPtr
deriving Repr, DecidableEq

/-- Result of a host-side operation: success, a structured error, or a Rust
panic. -/
inductive Outcome (α : Type) where
  | ok (a : α)
  | err (e : PyErr)
  | panicked (msg : String)
deriving Repr, DecidableEq

/-- True exactly on the err constructor. -/
def Outcome.isErr {α : Type} : Outcome α → Bool
  | .err _ => true
  | _ => false

/-- True when the outcome wraps a handle around the null pointer; the
invariant claims say this is never true. -/
def Outcome.wrapsNull : Outcome PyPtr → Bool
  | .ok h => h.ptr == 0
  | _ => false

/-- Modelled from the spec: PyErr::fetch (err.rs, not under src/).
Spec section 4.3: fetch retrieves and clears the foreign pending exception;
section 3: once fetched, the current-exception slot is cleared (destructive,
exactly-once). When nothing is pending the fetched error carries none. -/
def PyErr.fetch (s : FFIState) : PyErr × FFIState :=
  ({ exc := s.pending }, { s with pending := none })

/-- Modelled from the spec: result_from_owned_ptr (err.rs, not under src/).
Spec section 4.2: null raw handles are never wrapped directly; a null result
routes through the error-translation layer (fetch), a non-null result is
wrapped as an owned handle. -/
def result_from_owned_ptr (s : FFIState) (p : RawPtr) : Outcome PyPtr × FFIState :=
  if p = 0 then
    let (e, s') := PyErr.fetch s
    (.err e, s')
  else
    (.ok ⟨p⟩, s)

/-- Modelled from the spec: error_on_minusone (err.rs, not under src/).
Spec section 4.3: the failure sentinel for integer-returning calls is -1;
on the sentinel the pending error is fetched, otherwise the call succeeded.
The name of the function, visible at its call sites in
src/src/objectprotocol.rs, records the same contract. -/
def error_on_minusone (s : FFIState) (status : Int) : Outcome Unit × FFIState :=
  if status = -1 then
    let (e, s') := PyErr.fetch s
    (.err e, s')
  else
    (.ok (), s)

namespace ObjectProtocol

/-- Embeds ObjectProtocol::hash (src/src/objectprotocol.rs lines 135-142):
v is the raw result of ffi::PyObject_Hash; if v = -1 the pending error is
fetched and returned as err, otherwise v is returned as ok. The source does
not consult the pending-error flag before concluding failure. -/
def hash (s : FFIState) (v : Int) : Outcome Int × FFIState :=
  if v = -1 then
    let (e, s') := PyErr.fetch s
    (.err e, s')
  else
    (.ok v, s)

/-- Embeds ObjectProtocol::call (src/src/objectprotocol.rs lines 120-122):
the body is the unimplemented macro, which unconditionally panics with the
message shown, performing no foreign call; recv, args and kw are the raw
receiver, positional-argument object and optional keyword-argument object. -/
def call (s : FFIState) (recv : RawPtr) (args : RawPtr) (kw : Option RawPtr) :
    Outcome PyPtr × FFIState :=
  (.panicked ("not implemented"), s)

/-- Embeds ObjectProtocol::getattr (src/src/objectprotocol.rs lines 30-36):
rawAttr is the raw result of ffi::PyObject_GetAttr on the receiver and the
attribute name; it is routed through result_from_owned_ptr. -/
def getattr (s : FFIState) (rawAttr : RawPtr) : Outcome PyPtr × FFIState :=
  result_from_owned_ptr s rawAttr

/-- Embeds ObjectProtocol::call_method (src/src/objectprotocol.rs lines
127-130): try of getattr on the method name, then call on the looked-up
attribute with the given arguments; rawAttr is the raw result of the
attribute lookup. -/
def call_method (s : FFIState) (rawAttr : RawPtr) (args : RawPtr) (kw : Option RawPtr) :
    Outcome PyPtr × FFIState :=
  match getattr s rawAttr with
  | (.ok a, s') => call s' a.ptr args kw
  | (.err e, s') => (.err e, s')
  | (.panicked m, s') => (.panicked m, s')

/-- Embeds ObjectProtocol::compare (src/src/objectprotocol.rs lines 66-80):
status is the raw return of ffi::PyObject_Cmp and result its output slot;
the status is routed through error_on_minusone, then the slot is mapped to
an ordering by sign (negative to lt, positive to gt, zero to eq). -/
def compare (s : FFIState) (status : Int) (result : Int) : Outcome Ordering × FFIState :=
  match error_on_minusone s status with
  | (.ok _, s') =>
    (.ok (if result < 0 then Ordering.lt else if result > 0 then Ordering.gt else Ordering.eq), s')
  | (.err e, s') => (.err e, s')
  | (.panicked m, s') => (.panicked m, s')

/-- Embeds ObjectProtocol::setattr (src/src/objectprotocol.rs lines 41-50):
status is the raw return of ffi::PyObject_SetAttr, routed through
error_on_minusone. -/
def setattr (s : FFIState) (status : Int) : Outcome Unit × FFIState :=
  error_on_minusone s status

/-- Embeds ObjectProtocol::delattr (src/src/objectprotocol.rs lines 55-61):
status is the raw return of ffi::PyObject_DelAttr, routed through
error_on_minusone. -/
def delattr (s : FFIState) (status : Int) : Outcome Unit × FFIState :=
  error_on_minusone s status

/-- Embeds ObjectProtocol::set_item (src/src/objectprotocol.rs lines
181-188): status is the raw return of ffi::PyObject_SetItem, routed through
error_on_minusone. -/
def set_item (s : FFIState) (status : Int) : Outcome Unit × FFIState :=
  error_on_minusone s status

/-- Embeds ObjectProtocol::del_item (src/src/objectprotocol.rs lines
193-199): status is the raw return of ffi::PyObject_DelItem, routed through
error_on_minusone. -/
def del_item (s : FFIState) (status : Int) : Outcome Unit × FFIState :=
  error_on_minusone s status

/-- Embeds ObjectProtocol::repr (src/src/objectprotocol.rs lines 85-89):
raw is the raw result of ffi::PyObject_Repr, routed through
result_from_owned_ptr. -/
def repr (s : FFIState) (raw : RawPtr) : Outcome PyPtr × FFIState :=
  result_from_owned_ptr s raw

/-- Embeds ObjectProtocol::str (src/src/objectprotocol.rs lines 94-98):
raw is the raw result of ffi::PyObject_Str, routed through
result_from_owned_ptr. -/
def str (s : FFIState) (raw : RawPtr) : Outcome PyPtr × FFIState :=
  result_from_owned_ptr s raw

/-- Embeds ObjectProtocol::unistr (src/src/objectprotocol.rs lines 103-107):
raw is the raw result of ffi::PyObject_Unicode, routed through
result_from_owned_ptr. -/
def unistr (s : FFIState) (raw : RawPtr) : Outcome PyPtr × FFIState :=
  result_from_owned_ptr s raw

/-- Embeds ObjectProtocol::get_item (src/src/objectprotocol.rs lines
170-176): raw is the raw result of ffi::PyObject_GetItem, routed through
result_from_owned_ptr. -/
def get_item (s : FFIState) (raw : RawPtr) : Outcome PyPtr × FFIState :=
  result_from_owned_ptr s raw

end ObjectProtocol

namespace PyModule

/-- Modelled from the spec: Python::from_owned_ptr_or_err (not under src/),
the newer name of the same null-routing constructor as
result_from_owned_ptr; spec section 4.2. Used by PyModule::new
(src/src/types/module.rs lines 47-51) on the raw result of
ffi::PyModule_New. -/
def new (s : FFIState) (raw : RawPtr) : Outcome PyPtr × FFIState :=
  result_from_owned_ptr s raw

/-- Embeds PyModule::name (src/src/types/module.rs lines 170-180): raw is
the raw result of ffi::PyModule_GetName and content the (utf8) text it
points to when non-null; a null result is translated to the fetched pending
error (PyErr::api_call_failed, modelled from the spec as a fetch), a
non-null result succeeds with the text. -/
def name (s : FFIState) (raw : RawPtr) (content : String) : Outcome String × FFIState :=
  if raw = 0 then
    let (e, s') := PyErr.fetch s
    (.err e, s')
  else
    (.ok content, s)

end PyModule

/-- From src/src/ffi/pystate.rs lines 70-75: the two-valued lock state
enum returned by the acquire primitive and consumed by the release
primitive. -/
inductive PyGILState_STATE where
  | PyGILState_LOCKED
  | PyGILState_UNLOCKED
deriving Repr, DecidableEq

/-- Modelled from the spec: the per-thread state of the global lock.
The implementation of the lock is not under src/ (src/src/ffi/pystate.rs
holds only its extern declarations); spec sections 4.1 and 5 describe
reentrant acquisition through an internal nesting counter layered on the
external two-state lock. Depth 0 is UNLOCKED, any positive depth is
LOCKED. -/
structure GIL where
  depth : Nat
deriving Repr, DecidableEq

/-- The externally visible two-state view of the lock: LOCKED exactly when
the nesting depth is positive. -/
def GIL.locked (g : GIL) : Bool := g.depth != 0

/-- Modelled from the spec: PyGILState_Ensure (declared at
src/src/ffi/pystate.rs lines 78-79). Acquire: returns the prior two-valued
state and increments the nesting counter; it is total, so re-acquiring
while already LOCKED on the same thread succeeds rather than
deadlocking. -/
def PyGILState_Ensure (g : GIL) : PyGILState_STATE × GIL :=
  (if g.depth = 0 then .PyGILState_UNLOCKED else .PyGILState_LOCKED, ⟨g.depth + 1⟩)

/-- Modelled from the spec: PyGILState_Release (declared at
src/src/ffi/pystate.rs lines 80-81). Release: decrements the nesting
counter; the lock becomes UNLOCKED only when the outermost acquisition is
released. -/
def PyGILState_Release (g : GIL) : GIL := ⟨g.depth - 1⟩

/-- n successive acquire calls. -/
def ensureN : Nat → GIL → GIL
  | 0, g => g
  | n + 1, g => (PyGILState_Ensure (ensureN n g)).2

/-- n successive release calls. -/
def releaseN : Nat → GIL → GIL
  | 0, g => g
  | n + 1, g => PyGILState_Release (releaseN n g)

/-- Modelled from the spec: the raw foreign attribute-assignment entry
point (PyObject_SetAttr, external to this repository, spec section 4.4
attribute assignment): assignment on a plain object installs the binding
(the most recent binding is the current one) and reports status 0. -/
def rawSetAttr (s : FFIState) (n : String) (v : RawPtr) : Int × FFIState :=
  (0, { s with attrs := (n, v) :: s.attrs })

/-- Modelled from the spec: the raw foreign attribute-lookup entry point
(PyObject_GetAttr, external to this repository, spec section 4.4 attribute
lookup): a present attribute is returned, a missing one yields null with an
attribute-error exception object (1) left pending. -/
def rawGetAttr (s : FFIState) (n : String) : RawPtr × FFIState :=
  match s.attrs.lookup n with
  | some v => (v, s)
  | none => (0, { s with pending := some 1 })

/-- ObjectProtocol::setattr composed with the modelled raw assignment:
the raw status is fed to the source translation. -/
def setattr_run (s : FFIState) (n : String) (v : RawPtr) : Outcome Unit × FFIState :=
  let (status, s') := rawSetAttr s n v
  ObjectProtocol.setattr s' status

/-- ObjectProtocol::getattr composed with the modelled raw lookup: the raw
pointer is fed to the source translation. -/
def getattr_run (s : FFIState) (n : String) : Outcome PyPtr × FFIState :=
  let (p, s') := rawGetAttr s n
  ObjectProtocol.getattr s' p

/-- A foreign value as seen by the module layer of
src/src/types/module.rs: a list object holding exported names, or any
other object identified by its raw pointer. -/
inductive PyVal where
  | list (items : List String)
  | other (p : RawPtr)
deriving Repr, DecidableEq

/-- A structured error of the module layer: the attribute error raised by
a failed lookup, the error raised by a failed downcast to a list, or any
other foreign error. -/
inductive ModErr where
  | attributeError
  | downcastError
  | otherError (code : Nat)
deriving Repr, DecidableEq

/-- Mirrors the is_instance test against the attribute-error class at
src/src/types/module.rs line 156. -/
def ModErr.isAttributeError : ModErr → Bool
  | .attributeError => true
  | _ => false

/-- The attribute store of one module object; the most recent binding is
the current one. -/
structure ModuleState where
  attrs : List (String × PyVal)
deriving Repr, DecidableEq

/-- Installs an attribute binding on the module. -/
def ModuleState.setAttrVal (st : ModuleState) (n : String) (v : PyVal) : ModuleState :=
  ⟨(n, v) :: st.attrs⟩

/-- Modelled from the spec: the module attribute lookup used by the index
(spec section 4.4 attribute lookup): a present binding is returned, a
missing one fails with an attribute error. -/
def ModuleState.getattrAll (st : ModuleState) : Except ModErr PyVal :=
  match st.attrs.lookup ("__all__") with
  | some v => .ok v
  | none => .error .attributeError

namespace PyModule

/-- Embeds the match of PyModule::index (src/src/types/module.rs lines
152-165) as a function of the lookup result r: a successful lookup is
downcast to a list (failing with a downcast error on a non-list value), an
attribute-error lookup failure installs and returns a new empty list, and
any other lookup error is propagated unchanged. -/
def index_result (st : ModuleState) (r : Except ModErr PyVal) :
    Except ModErr (List String) × ModuleState :=
  match r with
  | .ok (.list l) => (.ok l, st)
  | .ok (.other _) => (.error .downcastError, st)
  | .error e =>
    if e.isAttributeError then
      (.ok [], st.setAttrVal ("__all__") (.list []))
    else
      (.error e, st)

/-- Embeds PyModule::index: index_result applied to the lookup of the
module. -/
def index (st : ModuleState) : Except ModErr (List String) × ModuleState :=
  index_result st st.getattrAll

/-- Embeds PyModule::add (src/src/types/module.rs lines 226-234): index,
then append the name to the returned list (in place, so the stored list
object is updated), then set the module attribute name to the value. -/
def add (st : ModuleState) (n : String) (v : PyVal) : Except ModErr Unit × ModuleState :=
  match index st with
  | (.error e, st') => (.error e, st')
  | (.ok l, st') =>
    let st'' := st'.setAttrVal ("__all__") (.list (l ++ [n]))
    (.ok (), st''.setAttrVal n v)

end PyModule

end PyO3

namespace PyO3

/-- Claim C1 counterexample: when the raw hash call returns -1 and no
exception is pending, the source returns an error (wrapping a no-error
fetch), not success with value -1 as the claim requires. -/
theorem hash_claim_counterexample :
    (ObjectProtocol.hash ⟨none, []⟩ (-1)).1 = .err ⟨none⟩ ∧
    (ObjectProtocol.hash ⟨none, []⟩ (-1)).1 ≠ .ok (-1) := by
  constructor
  · rfl
  · decide

/-- Claim C1, amended: hash yields an error exactly when the raw call
returns -1, fetching (and clearing) whatever exception is pending, even if
none is; any other raw value is returned as success. -/
theorem hash_amended (s : FFIState) (v : Int) :
    (v = -1 →
      ObjectProtocol.hash s v = (.err ⟨s.pending⟩, { s with pending := none })) ∧
    (v ≠ -1 →
      ObjectProtocol.hash s v = (.ok v, s)) := by
  constructor
  · intro h
    simp [ObjectProtocol.hash, PyErr.fetch, h]
  · intro h
    simp [ObjectProtocol.hash, h]

/-- Witness for hash_amended at concrete inputs: raw value -1 with a pending
exception 5 yields the fetched error, raw value 7 yields success 7. -/
theorem hash_amended_witness :
    ObjectProtocol.hash ⟨some 5, []⟩ (-1) = (.err ⟨some 5⟩, ⟨none, []⟩) ∧
    ObjectProtocol.hash ⟨some 5, []⟩ 7 = (.ok 7, ⟨some 5, []⟩) :=
  ⟨(hash_amended ⟨some 5, []⟩ (-1)).1 rfl,
   (hash_amended ⟨some 5, []⟩ 7).2 (by decide)⟩

/-- Claim C2: the source of ObjectProtocol::call is the unimplemented macro:
at any concrete input it panics, performing no foreign invocation and
returning neither an owned handle nor a structured error, contradicting the
claim (and the documentation comment of the function itself). -/
theorem call_unconditionally_panics :
    (ObjectProtocol.call ⟨none, []⟩ 1 2 none).1 = .panicked ("not implemented") := rfl

/-- Claim C3: call_method is the composition of get-attribute and call: if
the attribute lookup fails (null raw result) call_method returns exactly the
lookup error without invoking anything (in particular it does not panic,
although call itself always panics); if the lookup succeeds, call_method is
exactly call on the looked-up attribute with the given arguments. -/
theorem call_method_composes (s : FFIState) (rawAttr args : RawPtr) (kw : Option RawPtr) :
    (rawAttr = 0 →
      ObjectProtocol.getattr s rawAttr = (.err ⟨s.pending⟩, { s with pending := none }) ∧
      ObjectProtocol.call_method s rawAttr args kw =
        (.err ⟨s.pending⟩, { s with pending := none })) ∧
    (rawAttr ≠ 0 →
      ObjectProtocol.getattr s rawAttr = (.ok ⟨rawAttr⟩, s) ∧
      ObjectProtocol.call_method s rawAttr args kw =
        ObjectProtocol.call s rawAttr args kw) := by
  constructor
  · intro h
    subst h
    constructor
    · simp [ObjectProtocol.getattr, result_from_owned_ptr, PyErr.fetch]
    · simp [ObjectProtocol.call_method, ObjectProtocol.getattr,
        result_from_owned_ptr, PyErr.fetch]
  · intro h
    constructor
    · simp [ObjectProtocol.getattr, result_from_owned_ptr, h]
    · simp [ObjectProtocol.call_method, ObjectProtocol.getattr,
        result_from_owned_ptr, h]

/-- Witness for call_method_composes at concrete inputs: a failed lookup
(raw 0) short-circuits with the fetched error; a successful lookup (raw 4)
makes call_method agree with call on the attribute. -/
theorem call_method_composes_witness :
    ObjectProtocol.call_method ⟨some 9, []⟩ 0 2 none = (.err ⟨some 9⟩, ⟨none, []⟩) ∧
    ObjectProtocol.call_method ⟨some 9, []⟩ 4 2 none =
      ObjectProtocol.call ⟨some 9, []⟩ 4 2 none :=
  ⟨((call_method_composes ⟨some 9, []⟩ 0 2 none).1 rfl).2,
   ((call_method_composes ⟨some 9, []⟩ 4 2 none).2 (by decide)).2⟩

/-- Claim C7 counterexample: a nonzero comparison status that is not -1
(here 1) is not treated as failure by the source: compare returns an
ordering as success, while the claim requires a fetched error on any
nonzero status. -/
theorem compare_claim_counterexample :
    (1 : Int) ≠ 0 ∧
    (ObjectProtocol.compare ⟨none, []⟩ 1 0).1 = .ok Ordering.eq := by
  constructor
  · decide
  · rfl

/-- Claim C7, amended: compare returns a fetched error exactly when the raw
comparison status is the sentinel -1; for any other status it succeeds,
mapping a negative output slot to Less, a positive one to Greater and zero
to Equal. -/
theorem compare_amended (s : FFIState) (status result : Int) :
    (status = -1 →
      ObjectProtocol.compare s status result =
        (.err ⟨s.pending⟩, { s with pending := none })) ∧
    (status ≠ -1 →
      ObjectProtocol.compare s status result =
        (.ok (if result < 0 then Ordering.lt
              else if result > 0 then Ordering.gt
              else Ordering.eq), s)) := by
  constructor
  · intro h
    simp [ObjectProtocol.compare, error_on_minusone, PyErr.fetch, h]
  · intro h
    simp [ObjectProtocol.compare, error_on_minusone, h]

/-- Witness for compare_amended at concrete inputs: status -1 yields the
fetched pending error; status 0 with output slot -3 yields Less. -/
theorem compare_amended_witness :
    ObjectProtocol.compare ⟨some 2, []⟩ (-1) 5 = (.err ⟨some 2⟩, ⟨none, []⟩) ∧
    ObjectProtocol.compare ⟨some 2, []⟩ 0 (-3) = (.ok Ordering.lt, ⟨some 2, []⟩) := by
  constructor
  · exact (compare_amended ⟨some 2, []⟩ (-1) 5).1 rfl
  · have h := (compare_amended ⟨some 2, []⟩ 0 (-3)).2 (by decide)
    rw [h]
    norm_num

/-- Claim C8 counterexample: on status 1 (nonzero but not -1) every
unit-returning operation succeeds, while the claim requires a structured
error on any nonzero status. -/
theorem unit_ops_claim_counterexample :
    (1 : Int) ≠ 0 ∧
    (ObjectProtocol.setattr ⟨none, []⟩ 1).1 = .ok () ∧
    (ObjectProtocol.delattr ⟨none, []⟩ 1).1 = .ok () ∧
    (ObjectProtocol.set_item ⟨none, []⟩ 1).1 = .ok () ∧
    (ObjectProtocol.del_item ⟨none, []⟩ 1).1 = .ok () := by
  refine ⟨by decide, rfl, rfl, rfl, rfl⟩

/-- Claim C8, amended: set-attribute, delete-attribute, set-item and
delete-item succeed exactly when the raw status differs from the sentinel
-1, and return the fetched structured error exactly when the status is -1. -/
theorem unit_ops_amended (s : FFIState) (status : Int) :
    (status = -1 →
      ObjectProtocol.setattr s status = (.err ⟨s.pending⟩, { s with pending := none }) ∧
      ObjectProtocol.delattr s status = (.err ⟨s.pending⟩, { s with pending := none }) ∧
      ObjectProtocol.set_item s status = (.err ⟨s.pending⟩, { s with pending := none }) ∧
      ObjectProtocol.del_item s status = (.err ⟨s.pending⟩, { s with pending := none })) ∧
    (status ≠ -1 →
      ObjectProtocol.setattr s status = (.ok (), s) ∧
      ObjectProtocol.delattr s status = (.ok (), s) ∧
      ObjectProtocol.set_item s status = (.ok (), s) ∧
      ObjectProtocol.del_item s status = (.ok (), s)) := by
  constructor
  · intro h
    refine ⟨?_, ?_, ?_, ?_⟩ <;>
      simp [ObjectProtocol.setattr, ObjectProtocol.delattr, ObjectProtocol.set_item,
        ObjectProtocol.del_item, error_on_minusone, PyErr.fetch, h]
  · intro h
    refine ⟨?_, ?_, ?_, ?_⟩ <;>
      simp [ObjectProtocol.setattr, ObjectProtocol.delattr, ObjectProtocol.set_item,
        ObjectProtocol.del_item, error_on_minusone, h]

/-- Witness for unit_ops_amended at concrete inputs: status -1 fetches the
pending error for setattr, status 0 succeeds for del_item. -/
theorem unit_ops_amended_witness :
    ObjectProtocol.setattr ⟨some 8, []⟩ (-1) = (.err ⟨some 8⟩, ⟨none, []⟩) ∧
    ObjectProtocol.del_item ⟨some 8, []⟩ 0 = (.ok (), ⟨some 8, []⟩) :=
  ⟨((unit_ops_amended ⟨some 8, []⟩ (-1)).1 rfl).1,
   ((unit_ops_amended ⟨some 8, []⟩ 0).2 (by decide)).2.2.2⟩

/-- The null-routing contract of the spec-modelled owned-pointer
constructor: it never wraps null, errs on null, and on success wraps exactly
the non-null raw pointer it was given. -/
theorem result_from_owned_ptr_spec (s : FFIState) (p : RawPtr) :
    (result_from_owned_ptr s p).1.wrapsNull = false ∧
    (p = 0 → (result_from_owned_ptr s p).1.isErr = true) ∧
    (∀ h : PyPtr, (result_from_owned_ptr s p).1 = .ok h → h.ptr = p ∧ p ≠ 0) := by
  by_cases hp : p = 0
  · subst hp
    simp [result_from_owned_ptr, PyErr.fetch, Outcome.wrapsNull, Outcome.isErr]
  · refine ⟨?_, ?_, ?_⟩
    · simp [result_from_owned_ptr, hp, Outcome.wrapsNull]
    · intro h
      exact absurd h hp
    · intro h hok
      simp [result_from_owned_ptr, hp] at hok
      exact ⟨by rw [← hok], hp⟩

/-- Claim C4: no handle-returning operation ever wraps a null raw pointer:
get-attribute, repr, str, unicode conversion, get-item and module creation
err on a null raw result and wrap exactly the given non-null pointer on
success, and module name lookup errs on a null raw result and succeeds only
on a non-null one. -/
theorem no_null_handle_wrapped (s : FFIState) (p : RawPtr) (content : String) :
    ((ObjectProtocol.getattr s p).1.wrapsNull = false ∧
      (p = 0 → (ObjectProtocol.getattr s p).1.isErr = true) ∧
      (∀ h : PyPtr, (ObjectProtocol.getattr s p).1 = .ok h → h.ptr = p ∧ p ≠ 0)) ∧
    ((ObjectProtocol.repr s p).1.wrapsNull = false ∧
      (p = 0 → (ObjectProtocol.repr s p).1.isErr = true) ∧
      (∀ h : PyPtr, (ObjectProtocol.repr s p).1 = .ok h → h.ptr = p ∧ p ≠ 0)) ∧
    ((ObjectProtocol.str s p).1.wrapsNull = false ∧
      (p = 0 → (ObjectProtocol.str s p).1.isErr = true) ∧
      (∀ h : PyPtr, (ObjectProtocol.str s p).1 = .ok h → h.ptr = p ∧ p ≠ 0)) ∧
    ((ObjectProtocol.unistr s p).1.wrapsNull = false ∧
      (p = 0 → (ObjectProtocol.unistr s p).1.isErr = true) ∧
      (∀ h : PyPtr, (ObjectProtocol.unistr s p).1 = .ok h → h.ptr = p ∧ p ≠ 0)) ∧
    ((ObjectProtocol.get_item s p).1.wrapsNull = false ∧
      (p = 0 → (ObjectProtocol.get_item s p).1.isErr = true) ∧
      (∀ h : PyPtr, (ObjectProtocol.get_item s p).1 = .ok h → h.ptr = p ∧ p ≠ 0)) ∧
    ((PyModule.new s p).1.wrapsNull = false ∧
      (p = 0 → (PyModule.new s p).1.isErr = true) ∧
      (∀ h : PyPtr, (PyModule.new s p).1 = .ok h → h.ptr = p ∧ p ≠ 0)) ∧
    ((p = 0 → (PyModule.name s p content).1.isErr = true) ∧
      (p ≠ 0 → (PyModule.name s p content).1 = .ok content)) := by
  refine ⟨result_from_owned_ptr_spec s p, result_from_owned_ptr_spec s p,
    result_from_owned_ptr_spec s p, result_from_owned_ptr_spec s p,
    result_from_owned_ptr_spec s p, result_from_owned_ptr_spec s p, ?_, ?_⟩
  · intro h
    subst h
    simp [PyModule.name, PyErr.fetch, Outcome.isErr]
  · intro h
    simp [PyModule.name, h]

/-- Witness for no_null_handle_wrapped at concrete inputs: a null raw
result errs for getattr and module name lookup, a non-null one is wrapped
without nulls for get_item. -/
theorem no_null_handle_wrapped_witness :
    (ObjectProtocol.getattr ⟨some 3, []⟩ 0).1.isErr = true ∧
    (ObjectProtocol.get_item ⟨some 3, []⟩ 5).1.wrapsNull = false ∧
    (PyModule.name ⟨some 3, []⟩ 5 ("m")).1 = .ok ("m") :=
  ⟨(no_null_handle_wrapped ⟨some 3, []⟩ 0 ("m")).1.2.1 rfl,
   (no_null_handle_wrapped ⟨some 3, []⟩ 5 ("m")).2.2.2.2.1.1,
   (no_null_handle_wrapped ⟨some 3, []⟩ 5 ("m")).2.2.2.2.2.2.2 (by decide)⟩

/-- Claim C5: after a single protocol failure (a hash call whose raw result
is the sentinel -1 while exception e is pending), the returned error is the
fetched exception e and the current-exception slot of the resulting state
is cleared, so a further fetch with no intervening failure finds no error
pending (fetch is destructive, exactly-once). -/
theorem fetch_destructive (s : FFIState) (e : RawPtr) (h : s.pending = some e) :
    (ObjectProtocol.hash s (-1)).1 = .err ⟨some e⟩ ∧
    ((ObjectProtocol.hash s (-1)).2).pending = none ∧
    (PyErr.fetch (ObjectProtocol.hash s (-1)).2).1 = ⟨none⟩ := by
  refine ⟨?_, ?_, ?_⟩ <;> simp [ObjectProtocol.hash, PyErr.fetch, h]

/-- Witness for fetch_destructive at a concrete state: pending exception 3
is fetched once by the failing hash and a second fetch finds none. -/
theorem fetch_destructive_witness :
    (ObjectProtocol.hash ⟨some 3, []⟩ (-1)).1 = .err ⟨some 3⟩ ∧
    (PyErr.fetch (ObjectProtocol.hash ⟨some 3, []⟩ (-1)).2).1 = ⟨none⟩ :=
  ⟨(fetch_destructive ⟨some 3, []⟩ 3 rfl).1,
   (fetch_destructive ⟨some 3, []⟩ 3 rfl).2.2⟩

/-- Nesting depth after n acquire calls. -/
theorem ensureN_depth (n : Nat) (g : GIL) : (ensureN n g).depth = g.depth + n := by
  induction n with
  | zero => rfl
  | succ k ih =>
    show (ensureN k g).depth + 1 = g.depth + (k + 1)
    rw [ih]
    omega

/-- Nesting depth after n release calls. -/
theorem releaseN_depth (n : Nat) (g : GIL) : (releaseN n g).depth = g.depth - n := by
  induction n with
  | zero => rfl
  | succ k ih =>
    show (releaseN k g).depth - 1 = g.depth - (k + 1)
    rw [ih]
    omega

/-- Claim C6: starting UNLOCKED, acquiring N times then releasing N times
keeps the lock LOCKED from the first acquire through every inner release,
makes it UNLOCKED only after the outermost (N-th) release, and that is the
only point of the release sequence at which it is UNLOCKED (so it unlocks
exactly once and never double-unlocks); moreover a further acquire while
LOCKED succeeds, returning the LOCKED prior state and deepening the
nesting, so re-acquisition never deadlocks. -/
theorem gil_nested_balance (N j k : Nat) (hN : 1 ≤ N) :
    (1 ≤ j → j ≤ N → (ensureN j ⟨0⟩).locked = true) ∧
    (k < N → (releaseN k (ensureN N ⟨0⟩)).locked = true) ∧
    (releaseN N (ensureN N ⟨0⟩)).locked = false ∧
    (∀ m, m ≤ N → ((releaseN m (ensureN N ⟨0⟩)).locked = false ↔ m = N)) ∧
    (PyGILState_Ensure (ensureN N ⟨0⟩)).1 = .PyGILState_LOCKED ∧
    ((PyGILState_Ensure (ensureN N ⟨0⟩)).2).depth = N + 1 := by
  refine ⟨?_, ?_, ?_, ?_, ?_, ?_⟩
  · intro h1 h2
    simp [GIL.locked, ensureN_depth]
    omega
  · intro hk
    simp [GIL.locked, releaseN_depth, ensureN_depth]
    omega
  · simp [GIL.locked, releaseN_depth, ensureN_depth]
  · intro m hm
    simp [GIL.locked, releaseN_depth, ensureN_depth]
    omega
  · simp only [PyGILState_Ensure, ensureN_depth]
    rw [if_neg (by omega)]
  · simp [PyGILState_Ensure, ensureN_depth]

/-- Witness for gil_nested_balance at N = 3: locked after the first
acquire, still locked after two of three releases, unlocked after the
third, and a fourth acquire reports LOCKED and deepens to 4. -/
theorem gil_nested_balance_witness :
    (ensureN 1 ⟨0⟩).locked = true ∧
    (releaseN 2 (ensureN 3 ⟨0⟩)).locked = true ∧
    (releaseN 3 (ensureN 3 ⟨0⟩)).locked = false ∧
    (PyGILState_Ensure (ensureN 3 ⟨0⟩)).1 = .PyGILState_LOCKED ∧
    ((PyGILState_Ensure (ensureN 3 ⟨0⟩)).2).depth = 4 :=
  ⟨(gil_nested_balance 3 1 2 (by decide)).1 (by decide) (by decide),
   (gil_nested_balance 3 1 2 (by decide)).2.1 (by decide),
   (gil_nested_balance 3 1 2 (by decide)).2.2.1,
   (gil_nested_balance 3 1 2 (by decide)).2.2.2.2.1,
   (gil_nested_balance 3 1 2 (by decide)).2.2.2.2.2⟩

/-- Claim C9: for any object state, attribute name and non-null value v,
set-attribute succeeds and a following get-attribute succeeds with a handle
wrapping exactly v, and repeating the set-then-get pair yields the same
results (the round-trip is idempotent). -/
theorem setattr_getattr_roundtrip (s : FFIState) (n : String) (v : RawPtr) (hv : v ≠ 0) :
    (setattr_run s n v).1 = .ok () ∧
    (getattr_run (setattr_run s n v).2 n).1 = .ok ⟨v⟩ ∧
    (setattr_run (getattr_run (setattr_run s n v).2 n).2 n v).1 = .ok () ∧
    (getattr_run
      (setattr_run (getattr_run (setattr_run s n v).2 n).2 n v).2 n).1 = .ok ⟨v⟩ := by
  refine ⟨?_, ?_, ?_, ?_⟩ <;>
    simp [setattr_run, getattr_run, rawSetAttr, rawGetAttr, ObjectProtocol.setattr,
      ObjectProtocol.getattr, error_on_minusone, result_from_owned_ptr,
      List.lookup, hv]

/-- Witness for setattr_getattr_roundtrip at concrete inputs: setting
attribute x to 5 on an empty object then getting x yields the handle
wrapping 5, twice. -/
theorem setattr_getattr_roundtrip_witness :
    (5 : RawPtr) ≠ 0 ∧
    (getattr_run (setattr_run ⟨none, []⟩ ("x") 5).2 ("x")).1 = .ok ⟨5⟩ ∧
    (getattr_run
      (setattr_run (getattr_run (setattr_run ⟨none, []⟩ ("x") 5).2 ("x")).2
        ("x") 5).2 ("x")).1 = .ok ⟨5⟩ :=
  ⟨by decide,
   (setattr_getattr_roundtrip ⟨none, []⟩ ("x") 5 (by decide)).2.1,
   (setattr_getattr_roundtrip ⟨none, []⟩ ("x") 5 (by decide)).2.2.2⟩

/-- Claim C10 counterexample: on a module whose existing __all__ attribute
is not a list (here the plain object 7), index does not return the existing
__all__ attribute as the claim requires: it fails with a downcast error,
and add fails the same way. -/
theorem module_index_claim_counterexample :
    (PyModule.index ⟨[(("__all__" : String), PyVal.other 7)]⟩).1 =
      .error .downcastError ∧
    (PyModule.add ⟨[(("__all__" : String), PyVal.other 7)]⟩ ("c") (.other 2)).1 =
      .error .downcastError := by
  constructor <;> rfl

/-- Claim C10, amended: add first appends the name to the __all__ list and
only then sets the module attribute (so the name binding is installed after
the updated __all__ binding); index returns the existing __all__ attribute
when it is a list, fails with a downcast error when the existing __all__ is
not a list, creates, installs and returns a new empty list exactly when the
lookup fails with an attribute error, and propagates any other lookup error
unchanged. -/
theorem module_add_spec (st : ModuleState) (n : String) (v : PyVal)
    (l : List String) (p : RawPtr) (e : ModErr) :
    (st.attrs.lookup ("__all__") = some (.list l) →
      PyModule.index st = (.ok l, st) ∧
      PyModule.add st n v =
        (.ok (), (st.setAttrVal ("__all__") (.list (l ++ [n]))).setAttrVal n v)) ∧
    (st.attrs.lookup ("__all__") = none →
      PyModule.index st = (.ok [], st.setAttrVal ("__all__") (.list [])) ∧
      PyModule.add st n v =
        (.ok (), ((st.setAttrVal ("__all__") (.list [])).setAttrVal
          ("__all__") (.list [n])).setAttrVal n v)) ∧
    (st.attrs.lookup ("__all__") = some (.other p) →
      PyModule.index st = (.error .downcastError, st) ∧
      PyModule.add st n v = (.error .downcastError, st)) ∧
    (e.isAttributeError = false →
      PyModule.index_result st (.error e) = (.error e, st)) := by
  refine ⟨?_, ?_, ?_, ?_⟩
  · intro h
    constructor
    · simp [PyModule.index, PyModule.index_result, ModuleState.getattrAll, h]
    · simp [PyModule.add, PyModule.index, PyModule.index_result,
        ModuleState.getattrAll, h]
  · intro h
    constructor
    · simp [PyModule.index, PyModule.index_result, ModuleState.getattrAll, h,
        ModErr.isAttributeError]
    · simp [PyModule.add, PyModule.index, PyModule.index_result,
        ModuleState.getattrAll, h, ModErr.isAttributeError]
  · intro h
    constructor
    · simp [PyModule.index, PyModule.index_result, ModuleState.getattrAll, h]
    · simp [PyModule.add, PyModule.index, PyModule.index_result,
        ModuleState.getattrAll, h]
  · intro h
    simp [PyModule.index_result, h]

/-- Witness for module_add_spec at concrete inputs: with __all__ bound to
the list containing a, adding b appends b to __all__ and then binds b; a
non-attribute-error lookup failure propagates unchanged. -/
theorem module_add_spec_witness :
    PyModule.add ⟨[(("__all__" : String), PyVal.list ["a"])]⟩ ("b") (.other 2) =
      (.ok (), ((⟨[(("__all__" : String), PyVal.list ["a"])]⟩ :
        ModuleState).setAttrVal ("__all__")
          (.list (["a"] ++ ["b"]))).setAttrVal ("b") (.other 2)) ∧
    PyModule.index_result ⟨[]⟩ (.error (.otherError 9)) =
      (.error (.otherError 9), ⟨[]⟩) :=
  ⟨((module_add_spec ⟨[(("__all__" : String), PyVal.list ["a"])]⟩ ("b") (.other 2)
      ["a"] 0 (.otherError 9)).1 (by decide)).2,
   (module_add_spec ⟨[]⟩ ("b") (.other 2) ["a"] 0 (.otherError 9)).2.2.2 (by decide)⟩

end PyO3
